import Mathlib

/-!
Verification of the GuidPro speech-feedback service (src/app.py).

The file embeds, as executable Lean definitions, the parts of the service
the claims are about: the raw-to-WAV conversion step (convert_to_wav),
the hybrid transcription decision in the upload handler (upload_audio,
Vosk first with fallback to AssemblyAI on a short transcript), the
AssemblyAI polling loop (transcribe_with_assemblyai), the text analysis
(analyze_and_push, lines 138-145) and the scoring formulas
(lines 155-157), together with the shape of the handler's response on
success and on a store failure.
-/

namespace GuidePro

/-- Whitespace characters recognized by Python str.split with no argument:
space, tab, newline, carriage return, vertical tab, form feed. -/
def isPyWs (c : Char) : Bool :=
  c == ' ' || c == '\t' || c == '\n' || c == '\r' || c == Char.ofNat 11 || c == Char.ofNat 12

/-- Accumulating splitter: collects maximal runs of non-whitespace characters,
dropping empty runs, as Python str.split does. -/
def wsSplitAux : List Char → List Char → List (List Char)
  | cur, [] => if cur.isEmpty then [] else [cur.reverse]
  | cur, c :: cs =>
    if isPyWs c then
      if cur.isEmpty then wsSplitAux [] cs else cur.reverse :: wsSplitAux [] cs
    else wsSplitAux (c :: cur) cs

/-- Python text.split(): whitespace-separated tokens, empties dropped
(src/app.py line 138 and line 221). -/
def pySplit (s : String) : List String :=
  (wsSplitAux [] s.data).map (fun w => String.mk w)

/-- The fixed punctuation set stripped from token ends (line 141): period,
comma, bang, question mark, semicolon, colon, double quote, apostrophe,
parentheses, square brackets and curly brackets. -/
def stripPunct : List Char :=
  ['.', ',', '!', '?', ';', ':', '"', Char.ofNat 39, '(', ')', '[', ']',
   Char.ofNat 123, Char.ofNat 125]

def isStripChar (c : Char) : Bool := stripPunct.contains c

/-- Token normalization of line 141: lowercase, then strip the fixed
punctuation set from both ends (internal punctuation kept). -/
def normalizeToken (s : String) : String :=
  String.mk ((((s.data.map Char.toLower).dropWhile isStripChar).reverse.dropWhile
    isStripChar).reverse)

/-- The transcript's tokens after per-token normalization (lines 138-141). -/
def normWords (text : String) : List String := (pySplit text).map normalizeToken

/-- The frequency table word_count of lines 139-142, read at one key. -/
def wordCount (text : String) (w : String) : Nat := (normWords text).count w

/-- Line 143: the entries of word_count whose count exceeds 1. -/
def repetitiveWords (text : String) : List (String × Nat) :=
  (normWords text).dedup.filterMap
    (fun w => if 1 < wordCount text w then some (w, wordCount text w) else none)

/-- Line 144: the fixed filler vocabulary. -/
def fillerVocab : List String := ["uh", "ah", "um", "so", "because"]

/-- Line 144: each vocabulary word mapped to its count in word_count,
with 0 for an absent key. -/
def fillerWords (text : String) : List (String × Nat) :=
  fillerVocab.map (fun w => (w, wordCount text w))

/-- Line 145: total word count is the number of raw whitespace tokens. -/
def totalWords (text : String) : Nat := (pySplit text).length

/-- The analysis record pushed under the feedback key (lines 161-165). -/
structure AnalysisReport where
  total : Nat
  repetitive : List (String × Nat)
  filler : List (String × Nat)

/-- The pure text-analysis part of analyze_and_push (lines 138-145). -/
def analyze (text : String) : AnalysisReport :=
  ⟨totalWords text, repetitiveWords text, fillerWords text⟩

/-- The summary record of lines 166-170. -/
structure ScoreSummary where
  pres_score : Int
  time_score : Int
  overall : ℚ

/-- The scoring formulas of lines 155-157: presentation from the number of
distinct repetitive words, time from the sum of filler counts, overall as the
exact mean under Python true division. -/
def score (r : AnalysisReport) : ScoreSummary :=
  let p : Int := max (100 - (r.repetitive.length : Int) * 2) 0
  let t : Int := max (100 - (((r.filler.map Prod.snd).sum : Nat) : Int) * 2) 0
  ⟨p, t, ((p : ℚ) + (t : ℚ)) / 2⟩

/-- Line 221: the upload handler falls back to AssemblyAI exactly when the
Vosk transcript has fewer than 5 whitespace tokens. -/
def fallbackTriggered (localText : String) : Bool :=
  decide ((pySplit localText).length < 5)

/-- transcribe_with_assemblyai is reached exactly when the fallback fires. -/
def cloudInvoked (localText : String) : Bool := fallbackTriggered localText

/-- The text bound at line 223 after the hybrid decision. -/
def finalTranscript (localText cloudText : String) : String :=
  if (pySplit localText).length < 5 then cloudText else localText

/-- Total filler occurrences of a transcript: the sum of the five vocabulary
counts, as summed at line 156. -/
def fillerOccurrences (text : String) : Nat :=
  ((fillerWords text).map Prod.snd).sum

/-- The rejection condition in the words of the spec (section 4.3, claim C1):
word count below 5 or strictly more than 5 filler occurrences. Stated only to
be compared with the implemented condition fallbackTriggered. -/
def specRejects (text : String) : Bool :=
  decide (totalWords text < 5) || decide (5 < fillerOccurrences text)

/-- One poll response from the AssemblyAI transcript endpoint (line 121). -/
inductive PollStatus where
  | pending
  | completed (text : String)
  | failed

/-- The polling loop of transcribe_with_assemblyai (lines 116-130), run
against a stream of poll responses and an explicit fuel bound: the source
loop is while True, so it is recovered as the supremum over all fuels.
Returns the transcript on completed, the empty string on failed, and none
when the fuel runs out before either status is seen. -/
def pollLoop (poll : Nat → PollStatus) : Nat → Nat → Option String
  | 0, _ => none
  | fuel + 1, i =>
    match poll i with
    | .completed t => some t
    | .failed => some ""
    | .pending => pollLoop poll fuel (i + 1)

/-- Outcome of the Vosk call in upload_audio: either a transcript, or an
exception such as a model-load failure (EngineUnavailable). -/
inductive EngineResult where
  | ok (text : String)
  | engineError (msg : String)

/-- What the upload handler observes after the hybrid transcription step. -/
structure UploadOutcome where
  cloudCalled : Bool
  response : Except String String

/-- The transcription phase of upload_audio (lines 219-229): a Vosk
exception is not handled at line 220, so it unwinds to the handler's except
clause, which returns an error body; AssemblyAI is reached only on a short
Vosk transcript. -/
def uploadPipeline (localResult : EngineResult) (cloudText : String) : UploadOutcome :=
  match localResult with
  | .engineError msg => ⟨false, .error msg⟩
  | .ok text =>
    if (pySplit text).length < 5 then ⟨true, .ok cloudText⟩ else ⟨false, .ok text⟩

/-- The JSON body upload_audio returns (line 226 on success, line 229 on an
uncaught exception). -/
structure UploadResponse where
  httpOk : Bool
  transcript : Option String
  errorMsg : Option String

/-- The tail of upload_audio after transcription: analyze_and_push computes
the report and then writes it with ref.set (lines 159-171). When the store
write raises, the exception unwinds to lines 227-229 and the handler returns
an error body carrying neither transcript nor report; only on a successful
write does the 200 body carry the transcript. -/
def respondAfterAnalysis (text : String) (storeOk : Bool) : UploadResponse :=
  if storeOk then ⟨true, some text, none⟩ else ⟨false, none, some "store unavailable"⟩

/-- Pair consecutive bytes into little-endian 16-bit samples, as
np.frombuffer with dtype int16 reads an even-length buffer. -/
def toInt16Samples : List Nat → List Nat
  | b0 :: b1 :: rest => (b0 + 256 * b1) :: toInt16Samples rest
  | _ => []

/-- What convert_to_wav leaves behind: either a WAV written with the given
samples, or an exception caught by its own except clause and only logged
(lines 76-77), leaving the WAV file unwritten. -/
inductive WavResult where
  | written (samples : List Nat)
  | exceptionLogged

/-- convert_to_wav (lines 64-77): np.frombuffer with dtype int16 raises when
the byte length is odd, and that exception is caught and logged inside the
function; an empty buffer is not an error and yields an empty sample array. -/
def convert_to_wav (raw : List Nat) : WavResult :=
  if raw.length % 2 = 0 then WavResult.written (toInt16Samples raw)
  else WavResult.exceptionLogged

/-- upload_audio calls convert_to_wav at line 217 and proceeds to
transcription at line 220 unconditionally, since convert_to_wav never lets
an exception escape; the Bool records that transcription is attempted. -/
def uploadConvertPhase (raw : List Nat) : WavResult × Bool :=
  (convert_to_wav raw, true)

/-- Helper: an all-pending response stream exhausts any fuel. -/
theorem pollLoop_pending_none (fuel i : Nat) :
    pollLoop (fun _ => PollStatus.pending) fuel i = none := by
  induction fuel generalizing i with
  | zero => rfl
  | succ n ih => simpa [pollLoop] using ih (i + 1)

/-- Helper: if the response at index k is failed and all earlier responses
are pending, the loop started at the base index returns the empty string. -/
theorem pollLoop_first_failed (poll : Nat → PollStatus) :
    ∀ k i, poll (i + k) = PollStatus.failed →
      (∀ j, j < k → poll (i + j) = PollStatus.pending) →
      pollLoop poll (k + 1) i = some "" := by
  intro k
  induction k with
  | zero =>
    intro i h _
    have h0 : poll i = PollStatus.failed := by simpa using h
    simp [pollLoop, h0]
  | succ n ih =>
    intro i h hp
    have h0 : poll i = PollStatus.pending := by simpa using hp 0 (Nat.succ_pos n)
    simp only [pollLoop, h0]
    apply ih
    · simpa [Nat.add_comm, Nat.add_assoc, Nat.add_left_comm] using h
    · intro j hj
      simpa [Nat.add_comm, Nat.add_assoc, Nat.add_left_comm] using
        hp (j + 1) (Nat.succ_lt_succ hj)

/-- Helper: np.frombuffer with dtype int16 yields half as many samples as
there are bytes. -/
theorem toInt16Samples_length : ∀ l : List Nat, (toInt16Samples l).length = l.length / 2
  | [] => by simp [toInt16Samples]
  | [_] => by simp [toInt16Samples]
  | _ :: _ :: rest => by
    simp [toInt16Samples, toInt16Samples_length rest]
    omega

/-- C1 counterexample: a transcript of six words, all of them fillers, has
more than 5 filler occurrences, so the claimed heuristic would reject it and
invoke CloudEngine; the implemented check accepts it and the cloud engine is
not invoked. -/
theorem C1_counterexample :
    totalWords "uh uh uh uh uh uh" = 6 ∧
    fillerOccurrences "uh uh uh uh uh uh" = 6 ∧
    specRejects "uh uh uh uh uh uh" = true ∧
    fallbackTriggered "uh uh uh uh uh uh" = false ∧
    cloudInvoked "uh uh uh uh uh uh" = false := by
  decide

/-- C1 amended: the upload handler falls back to CloudEngine exactly when the
local word count is below 5; the filler-occurrence count plays no role in the
decision. -/
theorem C1_fallback_iff_short (localText cloudText : String) :
    (fallbackTriggered localText = true ↔ totalWords localText < 5) ∧
    cloudInvoked localText = fallbackTriggered localText ∧
    finalTranscript localText cloudText =
      (if totalWords localText < 5 then cloudText else localText) := by
  refine ⟨?_, rfl, rfl⟩
  simp [fallbackTriggered, totalWords]

/-- C2: a local transcript with at least 5 words (the boundary word count 5
included) and at most 5 filler occurrences is accepted as the final
transcript, and the cloud engine is never invoked. -/
theorem C2_local_accepted (localText cloudText : String)
    (hwords : 5 ≤ totalWords localText) (_hfill : fillerOccurrences localText ≤ 5) :
    finalTranscript localText cloudText = localText ∧ cloudInvoked localText = false := by
  constructor
  · unfold finalTranscript
    have h : ¬ (pySplit localText).length < 5 := Nat.not_lt.mpr hwords
    rw [if_neg h]
  · show decide ((pySplit localText).length < 5) = false
    exact decide_eq_false (Nat.not_lt.mpr hwords)

theorem C2_local_accepted_witness :
    5 ≤ totalWords "we will meet you at noon" ∧
    fillerOccurrences "we will meet you at noon" ≤ 5 ∧
    finalTranscript "we will meet you at noon" "cloud text" = "we will meet you at noon" ∧
    cloudInvoked "we will meet you at noon" = false :=
  ⟨by decide, by decide,
   (C2_local_accepted "we will meet you at noon" "cloud text" (by decide) (by decide)).1,
   (C2_local_accepted "we will meet you at noon" "cloud text" (by decide) (by decide)).2⟩

/-- C3 counterexample: the polling loop of transcribe_with_assemblyai is
while True with no attempt bound; on a response stream that stays pending
forever it never returns, whatever fuel it is given, so it does not
terminate for every sequence of poll responses. -/
theorem C3_counterexample :
    ¬ ∃ fuel t, pollLoop (fun _ => PollStatus.pending) fuel 0 = some t := by
  rintro ⟨fuel, t, h⟩
  rw [pollLoop_pending_none] at h
  exact Option.noConfusion h

/-- C3 amended: the polling loop is unbounded and terminates only when some
poll response leaves pending; when the first non-pending response is failed,
it returns the empty transcript, and the pipeline still proceeds through
analysis and scoring of the empty text, producing the full-marks summary. -/
theorem C3_failed_poll_empty_transcript (poll : Nat → PollStatus) (k : Nat)
    (hk : poll k = PollStatus.failed)
    (hpend : ∀ j, j < k → poll j = PollStatus.pending) :
    pollLoop poll (k + 1) 0 = some "" ∧
    (score (analyze "")).pres_score = 100 ∧
    (score (analyze "")).time_score = 100 ∧
    (score (analyze "")).overall = 100 := by
  refine ⟨pollLoop_first_failed poll k 0 (by simpa using hk) (by simpa using hpend),
    by decide, by decide, ?_⟩
  show ((((100 : Int) : ℚ)) + (((100 : Int) : ℚ))) / 2 = 100
  norm_num

theorem C3_failed_poll_empty_transcript_witness :
    pollLoop (fun _ => PollStatus.failed) (0 + 1) 0 = some "" :=
  (C3_failed_poll_empty_transcript (fun _ => PollStatus.failed) 0 rfl
    (fun j hj => absurd hj (Nat.not_lt_zero j))).1

/-- C4 counterexample: when the Vosk call raises EngineUnavailable, the
cloud engine is not attempted and the raw error is returned to the caller
as the handler's error response. -/
theorem C4_counterexample :
    (uploadPipeline (EngineResult.engineError "EngineUnavailable") "cloud text").cloudCalled
      = false ∧
    (uploadPipeline (EngineResult.engineError "EngineUnavailable") "cloud text").response
      = Except.error "EngineUnavailable" :=
  ⟨rfl, rfl⟩

/-- C4 amended: a local-engine exception is not caught around the Vosk call;
it unwinds to the handler's top-level except clause, so the cloud engine is
never attempted and the caller receives the error message of the engine
failure instead of a transcript. -/
theorem C4_engine_error_skips_cloud (msg cloudText : String) :
    (uploadPipeline (EngineResult.engineError msg) cloudText).cloudCalled = false ∧
    (uploadPipeline (EngineResult.engineError msg) cloudText).response = Except.error msg :=
  ⟨rfl, rfl⟩

/-- C5: for every text, the analysis total equals the whitespace-split token
count; every repetitive-words entry has count above 1; the filler mapping has
exactly the five fixed vocabulary keys; and the empty text yields total 0,
no repetitive entries, and all five filler counts 0. -/
theorem C5_analysis_invariants (text : String) :
    (analyze text).total = (pySplit text).length ∧
    (analyze text).repetitive.all (fun p => decide (1 < p.2)) = true ∧
    (analyze text).filler.map Prod.fst = fillerVocab ∧
    (analyze "").total = 0 ∧
    (analyze "").repetitive = [] ∧
    (analyze "").filler = fillerVocab.map (fun w => (w, 0)) := by
  refine ⟨rfl, ?_, rfl, rfl, rfl, rfl⟩
  simp only [analyze, repetitiveWords, List.all_eq_true, List.mem_filterMap]
  rintro p ⟨w, hw, hfw⟩
  by_cases h : 1 < wordCount text w
  · rw [if_pos h] at hfw
    cases hfw
    simpa using h
  · rw [if_neg h] at hfw
    exact absurd hfw (by simp)

/-- C6: the scores are computed by the stated formulas, the overall score is
the exact unrounded arithmetic mean of the two, and presentation and time are
always between 0 and 100. -/
theorem C6_score_formulas (r : AnalysisReport) :
    (score r).pres_score = max (100 - (r.repetitive.length : Int) * 2) 0 ∧
    (score r).time_score = max (100 - (((r.filler.map Prod.snd).sum : Nat) : Int) * 2) 0 ∧
    (score r).overall = (((score r).pres_score : ℚ) + ((score r).time_score : ℚ)) / 2 ∧
    0 ≤ (score r).pres_score ∧ (score r).pres_score ≤ 100 ∧
    0 ≤ (score r).time_score ∧ (score r).time_score ≤ 100 := by
  refine ⟨rfl, rfl, rfl, ?_, ?_, ?_, ?_⟩
  · exact le_max_right _ _
  · show max (100 - (r.repetitive.length : Int) * 2) 0 ≤ 100
    exact max_le (by omega) (by norm_num)
  · exact le_max_right _ _
  · show max (100 - (((r.filler.map Prod.snd).sum : Nat) : Int) * 2) 0 ≤ 100
    exact max_le (by omega) (by norm_num)

/-- C7 counterexample: when the store write fails, the handler's response
carries no transcript and no report, only an error body; there is no
computed-but-not-persisted success status. -/
theorem C7_counterexample :
    (respondAfterAnalysis "hello there everyone today" false).transcript = none ∧
    (respondAfterAnalysis "hello there everyone today" false).httpOk = false ∧
    (respondAfterAnalysis "hello there everyone today" false).errorMsg =
      some "store unavailable" :=
  ⟨rfl, rfl, rfl⟩

/-- C7 amended: a store failure inside analyze_and_push unwinds to the
handler's except clause, which discards the computed transcript and report
and returns an error response; only a successful store write yields a
success response carrying the transcript. -/
theorem C7_store_failure_discards_report (text : String) :
    (respondAfterAnalysis text false).transcript = none ∧
    (respondAfterAnalysis text false).httpOk = false ∧
    (respondAfterAnalysis text false).errorMsg = some "store unavailable" ∧
    (respondAfterAnalysis text true).transcript = some text ∧
    (respondAfterAnalysis text true).httpOk = true :=
  ⟨rfl, rfl, rfl, rfl, rfl⟩

/-- C8 counterexample: an empty raw buffer converts without any error into a
WAV with no samples, and an odd-length buffer makes np.frombuffer raise
inside convert_to_wav, where the exception is caught and logged; in both
cases the handler still proceeds to transcription, so no MalformedAudio
error is fatal or surfaced. -/
theorem C8_counterexample :
    convert_to_wav [] = WavResult.written [] ∧
    convert_to_wav [0, 0, 0] = WavResult.exceptionLogged ∧
    (uploadConvertPhase [0, 0, 0]).2 = true ∧
    (uploadConvertPhase []).2 = true :=
  ⟨rfl, rfl, rfl, rfl⟩

/-- C8 amended: conversion writes length/2 samples exactly when the byte
length is even (an empty buffer included, with no error), logs a caught
exception when the length is odd, and in every case the pipeline proceeds
to transcription; no error reaches the caller from this step. -/
theorem C8_conversion_never_fatal (raw : List Nat) :
    convert_to_wav raw =
      (if raw.length % 2 = 0 then WavResult.written (toInt16Samples raw)
       else WavResult.exceptionLogged) ∧
    (toInt16Samples raw).length = raw.length / 2 ∧
    (uploadConvertPhase raw).2 = true :=
  ⟨rfl, toInt16Samples_length raw, rfl⟩

/-- C9: both scores are always even integers, hence the overall score, their
exact mean, is always an integer; in particular a fractional value such as
87.5 is unreachable. -/
theorem C9_overall_always_integral (r : AnalysisReport) :
    Even (score r).pres_score ∧ Even (score r).time_score ∧
    (∃ n : ℤ, (score r).overall = (n : ℚ)) ∧ (score r).overall ≠ 87.5 := by
  have hp : Even (score r).pres_score := by
    show Even (max (100 - (r.repetitive.length : Int) * 2) 0)
    rcases max_choice (100 - (r.repetitive.length : Int) * 2) 0 with h | h <;> rw [h]
    · exact ⟨50 - (r.repetitive.length : Int), by ring⟩
    · exact even_zero
  have ht : Even (score r).time_score := by
    show Even (max (100 - (((r.filler.map Prod.snd).sum : Nat) : Int) * 2) 0)
    rcases max_choice (100 - (((r.filler.map Prod.snd).sum : Nat) : Int) * 2) 0 with h | h <;>
      rw [h]
    · exact ⟨50 - (((r.filler.map Prod.snd).sum : Nat) : Int), by ring⟩
    · exact even_zero
  obtain ⟨a, ha⟩ := hp
  obtain ⟨b, hb⟩ := ht
  have hov : (score r).overall = ((a + b : ℤ) : ℚ) := by
    show (((score r).pres_score : ℚ) + ((score r).time_score : ℚ)) / 2 = ((a + b : ℤ) : ℚ)
    rw [ha, hb]
    push_cast
    ring
  refine ⟨⟨a, ha⟩, ⟨b, hb⟩, ⟨a + b, hov⟩, ?_⟩
  rw [hov]
  intro hcontra
  have h2 : ((a + b : ℤ) : ℚ) * 2 = 175 := by rw [hcontra]; norm_num
  have h3 : ((2 * (a + b) : ℤ) : ℚ) = ((175 : ℤ) : ℚ) := by push_cast at h2 ⊢; linarith
  have h4 : (2 * (a + b) : ℤ) = 175 := by exact_mod_cast h3
  omega

/-- C10: a filler-vocabulary word whose normalized count exceeds 1 appears in
the repetitive-words mapping and in the filler mapping with the same count,
since both are read off the same frequency table. -/
theorem C10_repeated_filler_in_both (text w : String)
    (hv : w ∈ fillerVocab) (hc : 1 < wordCount text w) :
    (w, wordCount text w) ∈ (analyze text).repetitive ∧
    (w, wordCount text w) ∈ (analyze text).filler := by
  constructor
  · show (w, wordCount text w) ∈ repetitiveWords text
    have hmem : w ∈ normWords text := by
      have hpos : 0 < (normWords text).count w := lt_trans Nat.zero_lt_one hc
      exact List.count_pos_iff.mp hpos
    refine List.mem_filterMap.mpr ⟨w, List.mem_dedup.mpr hmem, ?_⟩
    rw [if_pos hc]
  · exact List.mem_map.mpr ⟨w, hv, rfl⟩

theorem C10_repeated_filler_in_both_witness :
    ("so" ∈ fillerVocab) ∧ 1 < wordCount "so so" "so" ∧
    ("so", wordCount "so so" "so") ∈ (analyze "so so").repetitive ∧
    ("so", wordCount "so so" "so") ∈ (analyze "so so").filler :=
  ⟨by decide, by decide,
   (C10_repeated_filler_in_both "so so" "so" (by decide) (by decide)).1,
   (C10_repeated_filler_in_both "so so" "so" (by decide) (by decide)).2⟩

end GuidePro
